import Mathlib

/-!
Shallow embedding of the aialaska browser chat client, covering the audio
decode/playback utilities (`src/utils/audioUtils.ts`), the Gemini service layer
(`src/services/geminiService.ts`) and the conversation/audio coordination of the
root App component (`src/unnamed/part_000`), together with theorems settling the
frozen specification claims.

Conventions of the embedding:
* JavaScript numbers that hold byte or index values become `Nat`/`Int`.
* Audio samples are exact rationals: the source computes `int16 / 32768.0` in
  IEEE doubles and stores into a `Float32Array`; every value `k / 32768` with
  `k` a 16-bit integer is exactly representable in both formats, so the
  rational model is exact.
* Asynchronous completions (backend responses) become explicit outcome
  parameters of the functions that await them; fallible operations become
  `Except` values, and a JavaScript `try`/`catch` becomes a total function that
  pattern-matches the `Except`.
-/

namespace Aialaska

/-! ### PCM decoder (`src/utils/audioUtils.ts`, `decodeAudioData`) -/

/-- Reinterpret two bytes (little-endian, as `Int16Array` does on the
little-endian platforms the app targets) as a signed 16-bit integer. -/
def toInt16 (lo hi : Nat) : Int :=
  let v := lo + 256 * hi
  if v < 32768 then (v : Int) else (v : Int) - 65536

/-- The signed 16-bit value stored at element index `k` of the
`Int16Array` view over the byte buffer (bytes `2*k` and `2*k+1`). -/
def int16At (bytes : List Nat) (k : Nat) : Int :=
  toInt16 (bytes.getD (2 * k) 0) (bytes.getD (2 * k + 1) 0)

/-- The decoded sample buffer: channel count, sample rate, and one list of
normalized rational samples per channel (the `AudioBuffer` the source builds
via `ctx.createBuffer` and fills via `getChannelData`). -/
structure AudioSampleBuffer where
  numChannels : Nat
  sampleRate : Nat
  channels : List (List ℚ)
deriving Repr, DecidableEq

/-- `decodeAudioData` from `src/utils/audioUtils.ts`: the `Int16Array` view has
`bytes.length / 2` elements, `frameCount` is its length divided by
`numChannels` (exact whenever `bytes.length` is a multiple of
`2 * numChannels`, the case the spec contracts for; the source would pass a
fractional length to `createBuffer` otherwise), and channel `ch` receives
`dataInt16[i * numChannels + ch] / 32768.0` at frame `i`. -/
def decodeAudioData (bytes : List Nat) (sampleRate : Nat := 24000)
    (numChannels : Nat := 1) : AudioSampleBuffer :=
  let frameCount := bytes.length / 2 / numChannels
  { numChannels := numChannels
    sampleRate := sampleRate
    channels :=
      (List.range numChannels).map fun channel =>
        (List.range frameCount).map fun i =>
          ((int16At bytes (i * numChannels + channel) : ℚ) / 32768) }

theorem toInt16_lower (lo hi : Nat) : -32768 ≤ toInt16 lo hi := by
  unfold toInt16
  dsimp only
  split <;> omega

theorem toInt16_upper (lo hi : Nat) (hlo : lo < 256) (hhi : hi < 256) :
    toInt16 lo hi < 32768 := by
  unfold toInt16
  dsimp only
  split <;> omega

theorem int16At_lower (bytes : List Nat) (k : Nat) : -32768 ≤ int16At bytes k :=
  toInt16_lower _ _

theorem getD_lt_256 (bytes : List Nat) (hbytes : ∀ b ∈ bytes, b < 256)
    (i : Nat) : bytes.getD i 0 < 256 := by
  rcases Nat.lt_or_ge i bytes.length with hk | hk
  · have hmem : bytes.getD i 0 ∈ bytes := by
      rw [List.getD_eq_getElem bytes 0 hk]
      exact bytes.getElem_mem hk
    exact hbytes _ hmem
  · simp [List.getD_eq_getElem?_getD, List.getElem?_eq_none hk]

theorem int16At_upper (bytes : List Nat) (hbytes : ∀ b ∈ bytes, b < 256)
    (k : Nat) : int16At bytes k < 32768 := by
  unfold int16At
  exact toInt16_upper _ _ (getD_lt_256 bytes hbytes _) (getD_lt_256 bytes hbytes _)

/-- Indexing helper for the `range`/`map` pattern used by the decoder. -/
theorem getD_range_map {α : Type} (f : Nat → α) (n i : Nat) (d : α)
    (h : i < n) : ((List.range n).map f).getD i d = f i := by
  rw [List.getD_eq_getElem?_getD, List.getElem?_map, List.getElem?_range h]
  rfl

/-- **C1.** For every byte sequence whose length is a multiple of
`2 * numChannels` (all entries genuine bytes), `decodeAudioData` produces a
buffer with `numChannels` channels, each holding
`byteLength / 2 / numChannels` frames, and the sample of channel `ch` at frame
`i` is the signed 16-bit little-endian value at interleaved position
`i * numChannels + ch` divided by `32768`, lying in `[-1, 1)`. -/
theorem decodeAudioData_spec (bytes : List Nat) (sampleRate numChannels : Nat)
    (hch : 0 < numChannels)
    (hbytes : ∀ b ∈ bytes, b < 256)
    (hlen : bytes.length % (2 * numChannels) = 0) :
    (decodeAudioData bytes sampleRate numChannels).channels.length =
        numChannels ∧
    (∀ c ∈ (decodeAudioData bytes sampleRate numChannels).channels,
        c.length = bytes.length / 2 / numChannels) ∧
    (∀ ch i, ch < numChannels → i < bytes.length / 2 / numChannels →
      (((decodeAudioData bytes sampleRate numChannels).channels.getD ch
          []).getD i 0 =
            (int16At bytes (i * numChannels + ch) : ℚ) / 32768 ∧
        -1 ≤ (((decodeAudioData bytes sampleRate numChannels).channels.getD ch
          []).getD i 0) ∧
        (((decodeAudioData bytes sampleRate numChannels).channels.getD ch
          []).getD i 0) < 1)) := by
  refine ⟨?_, ?_, ?_⟩
  · simp [decodeAudioData]
  · intro c hc
    simp only [decodeAudioData, List.mem_map] at hc
    obtain ⟨ch, _, rfl⟩ := hc
    simp
  · intro ch i hchlt hilt
    have hget : ((decodeAudioData bytes sampleRate numChannels).channels.getD
        ch []).getD i 0 = (int16At bytes (i * numChannels + ch) : ℚ) / 32768 := by
      unfold decodeAudioData
      rw [getD_range_map _ _ _ _ hchlt, getD_range_map _ _ _ _ hilt]
    refine ⟨hget, ?_, ?_⟩
    · rw [hget]
      rw [le_div_iff₀ (by norm_num : (0:ℚ) < 32768)]
      have := int16At_lower bytes (i * numChannels + ch)
      have : (-32768 : ℚ) ≤ (int16At bytes (i * numChannels + ch) : ℚ) := by
        exact_mod_cast this
      linarith
    · rw [hget]
      rw [div_lt_one (by norm_num : (0:ℚ) < 32768)]
      have := int16At_upper bytes hbytes (i * numChannels + ch)
      exact_mod_cast this

/-- Witness for C1: a concrete 4-byte mono input (`0x1234` then `0x8000`),
whose hypotheses hold and whose decoded samples are `4660/32768` and `-1`. -/
theorem decodeAudioData_spec_witness :
    (0 < 1 ∧ (∀ b ∈ [52, 18, 0, 128], b < 256) ∧
      ([52, 18, 0, 128] : List Nat).length % (2 * 1) = 0) ∧
    ((decodeAudioData [52, 18, 0, 128] 24000 1).channels.length = 1 ∧
    (∀ c ∈ (decodeAudioData [52, 18, 0, 128] 24000 1).channels,
        c.length = ([52, 18, 0, 128] : List Nat).length / 2 / 1) ∧
    (∀ ch i, ch < 1 → i < ([52, 18, 0, 128] : List Nat).length / 2 / 1 →
      (((decodeAudioData [52, 18, 0, 128] 24000 1).channels.getD ch
          []).getD i 0 =
            (int16At [52, 18, 0, 128] (i * 1 + ch) : ℚ) / 32768 ∧
        -1 ≤ (((decodeAudioData [52, 18, 0, 128] 24000 1).channels.getD ch
          []).getD i 0) ∧
        (((decodeAudioData [52, 18, 0, 128] 24000 1).channels.getD ch
          []).getD i 0) < 1))) :=
  ⟨⟨by decide, by decide, by decide⟩,
    decodeAudioData_spec [52, 18, 0, 128] 24000 1 (by decide) (by decide)
      (by decide)⟩

/-! ### Data model (`src/types.ts`) -/

/-- `MessageRole` from `src/types.ts` (the string enum `'user' | 'model'`). -/
inductive MessageRole where
  | user
  | model
deriving Repr, DecidableEq

/-- The relevant content of a browser `File` object: what `fileToGenerativePart`
extracts from it via `FileReader.readAsDataURL` (the base64 payload after the
comma of the data URL) together with its declared MIME type. -/
structure JsFile where
  base64Content : String
  mimeType : String
deriving Repr, DecidableEq

/-- The `'image' | 'pdf'` attachment kind of `src/types.ts`. -/
inductive AttachmentKind where
  | image
  | pdf
deriving Repr, DecidableEq

/-- `Attachment` from `src/types.ts`; the source's `type` field is named
`kind` here. -/
structure Attachment where
  file : JsFile
  previewUrl : String
  kind : AttachmentKind
  base64 : Option String := none
deriving Repr, DecidableEq

/-- `Message` from `src/types.ts`. The optional `isAudioPlaying?: boolean`
field is modelled as a `Bool` defaulting to `false`: the source only ever
tests it for truthiness, and JavaScript `undefined` is falsy. `timestamp`
abstracts the `Date` as a number. -/
structure Message where
  id : Nat
  role : MessageRole
  text : String
  attachments : Option (List Attachment) := none
  timestamp : Nat := 0
  isAudioPlaying : Bool := false
deriving Repr, DecidableEq

/-- `Language` from `src/types.ts`. -/
inductive Language where
  | ar
  | en
deriving Repr, DecidableEq

/-! ### Gemini service (`src/services/geminiService.ts`) -/

/-- The `SYSTEM_INSTRUCTION` constant. -/
def SYSTEM_INSTRUCTION : String :=
  "\nYou are \"Alaska\" (ألاسكا), an advanced personal AI assistant.\nYou were programmed and developed by \"Hamza Al-Jammal\" (حمزه الجمل).\nYou are NOT developed by Google.\nYou speak Arabic and English fluently.\nYour tone is natural, friendly, and intelligent.\nYour mission is to help the user with conversation, image analysis, and PDF reading.\nIf the user speaks Arabic, reply in Arabic. If the user speaks English, reply in English.\nKeep answers helpful, concise when needed, and comprehensive when asked.\n"

/-- A JavaScript error value as the catch blocks observe it: its `.message`,
its `.toString()` rendering, and an optional `.status` code. -/
structure JsError where
  message : String
  stringRep : String
  status : Option Nat := none
deriving Repr, DecidableEq

/-- The `Error("API_KEY_MISSING")` thrown by `getAiClient`. -/
def apiKeyMissingError : JsError :=
  { message := "API_KEY_MISSING", stringRep := "Error: API_KEY_MISSING" }

/-- `getAiClient`: throws `API_KEY_MISSING` when no credential is configured
(`process.env.API_KEY` absent), otherwise yields a client. The module-level
`aiInstance` cache only avoids reconstructing the client and does not change
observable behaviour for a fixed environment, so it is not modelled. -/
def getAiClient (apiKey : Option String) : Except JsError Unit :=
  match apiKey with
  | none => .error apiKeyMissingError
  | some _ => .ok ()

/-- A content part of a Gemini request: a text part or an `inlineData` part. -/
inductive Part where
  | text (t : String)
  | inlineData (data : String) (mimeType : String)
deriving Repr, DecidableEq

/-- One entry of the `history` array passed to `ai.chats.create`. -/
structure HistoryEntry where
  role : String
  text : String
deriving Repr, DecidableEq

/-- The observable request `generateTextResponse` issues: the system
instruction configured on the chat, the mapped history, and the parts of the
sent message. -/
structure TextRequest where
  systemInstructionField : String
  history : List HistoryEntry
  parts : List Part
deriving Repr, DecidableEq

/-- `history.slice(-10)`: the last (at most) 10 entries, in original order. -/
def recentHistory (history : List Message) : List Message :=
  history.drop (history.length - 10)

/-- The per-message mapping in `ai.chats.create`'s `history` argument:
`role: m.role === MessageRole.USER ? 'user' : 'model'`, `parts: [{text}]`. -/
def toHistoryEntry (m : Message) : HistoryEntry :=
  { role := match m.role with | .user => "user" | .model => "model"
    text := m.text }

/-- `fileToGenerativePart`: the `FileReader` data-URL round trip yields the
file's base64 payload as an `inlineData` part with the file's MIME type. -/
def fileToGenerativePart (f : JsFile) : Part :=
  .inlineData f.base64Content f.mimeType

/-- The request built inside `generateTextResponse` (lines 62–92): history is
`recentHistory` mapped through `toHistoryEntry`; parts are the current message
text (pushed only when the string is truthy, i.e. non-empty) followed by one
inline-data part per attachment. -/
def generateTextRequest (currentMessage : String) (attachments : List Attachment)
    (history : List Message) : TextRequest :=
  { systemInstructionField := SYSTEM_INSTRUCTION
    history := (recentHistory history).map toHistoryEntry
    parts := (if currentMessage ≠ "" then [Part.text currentMessage] else []) ++
      attachments.map (fun att => fileToGenerativePart att.file) }

/-- Outcome of the awaited `chat.sendMessage` call: a response whose `.text`
is a string or absent, or a thrown error. -/
inductive TextBackend where
  | success (text : Option String)
  | failure (e : JsError)
deriving Repr, DecidableEq

/-- The fallback reply for an empty or absent `result.text`. -/
def replyFallback : String :=
  "عذراً، لم أستطع تكوين رد. (Sorry, I couldn\x27t generate a response.)"

/-- The fixed bilingual missing/invalid API key notice. -/
def apiKeyErrorMessage : String :=
  "⚠️ **تنبيه هام**: مفتاح API مفقود أو غير صحيح.\n\nيرجى التأكد من إضافة متغير البيئة `API_KEY` في إعدادات المنصة (مثل Netlify أو Vercel).\n\n(Critical Error: API Key is missing or invalid. Please check your deployment settings.)"

/-- The generic bilingual backend-failure apology. -/
def genericErrorMessage : String :=
  "عذراً، حدث خطأ أثناء الاتصال بالخادم. (Error connecting to Alaska AI)"

/-- JavaScript `result.text || fallback`: both `undefined` and `""` are falsy
and select the fallback. -/
def textOrFallback : Option String → String
  | none => replyFallback
  | some s => if s = "" then replyFallback else s

/-- `error.toString().includes("API key")`: substring test via `splitOn`. -/
def containsApiKey (s : String) : Bool :=
  (s.splitOn "API key").length ≠ 1

/-- The catch block's API-key test:
`error.message === "API_KEY_MISSING" || error.toString().includes("API key") || error.status === 403`. -/
def isApiKeyError (e : JsError) : Bool :=
  e.message == "API_KEY_MISSING" || containsApiKey e.stringRep ||
    e.status == some 403

/-- The `try` body of `generateTextResponse`: obtain the client (may throw
`API_KEY_MISSING` before any network call), then the backend call either
yields a response — whose `.text` is returned with the `||` fallback — or
throws. -/
def generateTextResponseAux (apiKey : Option String) (backend : TextBackend) :
    Except JsError String :=
  match getAiClient apiKey with
  | .error e => .error e
  | .ok _ =>
    match backend with
    | .success t => .ok (textOrFallback t)
    | .failure e => .error e

/-- `generateTextResponse` (lines 53–105): the `try`/`catch` converts every
thrown error into one of the two bilingual error strings, so a plain string is
always returned. The request the success path sends is
`generateTextRequest currentMessage attachments history` (modelled separately
above); the reply depends only on the backend outcome. -/
def generateTextResponse (apiKey : Option String) (backend : TextBackend) :
    String :=
  match generateTextResponseAux apiKey backend with
  | .ok s => s
  | .error e =>
    if isApiKeyError e then apiKeyErrorMessage else genericErrorMessage

/-- Outcome of the awaited TTS `ai.models.generateContent` call: a thrown
error (caught inside `generateSpeech`), a response with no
`inlineData.data`, or a base64 audio payload — represented by its decoded
byte sequence, since `generateSpeech` immediately feeds it through
`decodeBase64`/`decodeAudioData`. -/
inductive SpeechOutcome where
  | failure (e : JsError)
  | noData
  | audio (bytes : List Nat)
deriving Repr, DecidableEq

/-- `generateSpeech` (lines 111–147): a missing credential or a thrown call
is caught and yields `null`; an absent `inlineData.data` yields `null`;
otherwise the payload is decoded with `decodeAudioData` at 24000 Hz mono. -/
def generateSpeech (apiKey : Option String) (outcome : SpeechOutcome) :
    Option AudioSampleBuffer :=
  match apiKey with
  | none => none
  | some _ =>
    match outcome with
    | .failure _ => none
    | .noData => none
    | .audio bytes => some (decodeAudioData bytes 24000 1)

/-! ### Playback handle (`src/utils/audioUtils.ts`, `playAudioBuffer`)

The returned handle wraps one platform `AudioBufferSourceNode` that
`playAudioBuffer` has already started. The node dispatches a single `ended`
event — on natural completion or once a `stop()` takes effect — and the
`onended` handler invokes the caller's completion callback. -/

inductive SourcePhase where
  | playing
  | ended
deriving Repr, DecidableEq

/-- State of a started source node: its phase and how many times the
completion callback has run. -/
structure SourceState where
  phase : SourcePhase
  callbackCount : Nat
deriving Repr, DecidableEq

/-- A node just after `source.start()`. -/
def initialSource : SourceState := { phase := .playing, callbackCount := 0 }

/-- Platform `source.stop()` on a started node: while playing, it ends
playback and the (single) `ended` event runs the callback; on a node that has
already ended, some engines raise, which is exactly what the source's
`// Ignore errors if already stopped` comment anticipates. -/
def sourceStopRaw (s : SourceState) : Except JsError SourceState :=
  match s.phase with
  | .playing => .ok { phase := .ended, callbackCount := s.callbackCount + 1 }
  | .ended =>
    .error { message := "InvalidStateError", stringRep := "InvalidStateError" }

/-- The `stop` closure returned by `playAudioBuffer`: `source.stop()` wrapped
in `try`/`catch` that swallows any error. -/
def handleStop (s : SourceState) : SourceState :=
  match sourceStopRaw s with
  | .ok s' => s'
  | .error _ => s

/-- Natural end of playback: the platform dispatches `ended` once while the
node is playing; the `onended` handler invokes the callback. -/
def sourceNaturalEnd (s : SourceState) : SourceState :=
  match s.phase with
  | .playing => { phase := .ended, callbackCount := s.callbackCount + 1 }
  | .ended => s

/-- The events that can reach a playback handle after creation. -/
inductive SourceEvent where
  | stop
  | naturalEnd
deriving Repr, DecidableEq

def stepSource (s : SourceState) : SourceEvent → SourceState
  | .stop => handleStop s
  | .naturalEnd => sourceNaturalEnd s

/-- The handle state after a sequence of `stop()` calls and at most one
platform end-of-playback, starting from a freshly started node. -/
def runSource (evs : List SourceEvent) : SourceState :=
  evs.foldl stepSource initialSource

/-! ### Conversation session (`src/unnamed/part_000`, the App component) -/

/-- State of one speech-recognition instance. `running` is entered by
`start()`, and `finished` by `stop()`/`abort()` or utterance completion. -/
inductive RecPhase where
  | idle
  | running
  | finished
deriving Repr, DecidableEq

/-- A `webkitSpeechRecognition` instance: its configured language tag, its
phase, and whether its `abort()` would raise in the current engine state (the
possibility `setupRecognition`'s `try`/`catch` defends against). -/
structure RecInstance where
  lang : String
  phase : RecPhase
  abortFaulty : Bool := false
deriving Repr, DecidableEq

/-- Platform `recognition.stop()`/`abort()`: terminates a running capture and
does nothing on a never-started or already-finished instance. -/
def recStopOp : RecPhase → RecPhase
  | .running => .finished
  | p => p

/-- `recognition.abort()` as `setupRecognition` calls it, which may raise on a
faulty engine (hence the surrounding `try`/`catch` in the source). -/
def recAbortRaw (r : RecInstance) : Except JsError RecInstance :=
  if r.abortFaulty then
    .error { message := "abort failed", stringRep := "Error: abort failed" }
  else
    .ok { r with phase := recStopOp r.phase }

/-- The App component's state: `useState` values, the audio refs, a ghost log
of handles on which `stop()` has been called, the recognition ref, and
fresh-id counters standing in for `uuidv4` and node identity. -/
structure SessionState where
  messages : List Message
  isLoading : Bool
  isRecording : Bool
  language : Language
  audioContextInitialized : Bool
  activeAudioSource : Option Nat
  stoppedHandles : List Nat
  recognition : Option RecInstance
  nextId : Nat
  nextHandle : Nat
deriving Repr, DecidableEq

/-- `setMessages(prev => prev.map(m => m.id === messageId ? { ...m, isAudioPlaying: v } : m))`. -/
def setFlag (messageId : Nat) (v : Bool) (ms : List Message) : List Message :=
  ms.map fun m => if m.id = messageId then { m with isAudioPlaying := v } else m

/-- `setMessages(prev => prev.map(m => ({ ...m, isAudioPlaying: false })))`. -/
def clearAllFlags (ms : List Message) : List Message :=
  ms.map fun m => { m with isAudioPlaying := false }

/-- `initAudioContext`: creates/resumes the audio context on first user
interaction. -/
def initAudioContext (s : SessionState) : SessionState :=
  { s with audioContextInitialized := true }

/-- The interruption block at the top of `handleSendMessage` (lines 159–163):
only when a playback handle is currently held, stop it, drop the ref, and
clear every message's audible flag. When no handle is held the block is
skipped entirely — including the flag clearing. -/
def sendPrologue (s : SessionState) : SessionState :=
  match s.activeAudioSource with
  | some h =>
    { s with
      stoppedHandles := h :: s.stoppedHandles
      activeAudioSource := none
      messages := clearAllFlags s.messages }
  | none => s

/-- `playResponseAudio` (lines 129–154): bail out without a context; mark the
message audible; await synthesis; on audio, stop any existing handle, start
playback and store the new handle; on no audio (or a caught error), clear the
message's flag again. The `await generateSpeech` outcome is the
`generateSpeech apiKey outcome` value. -/
def playResponseAudio (apiKey : Option String) (outcome : SpeechOutcome)
    (messageId : Nat) (s : SessionState) : SessionState :=
  if s.audioContextInitialized = false then s
  else
    let s1 := { s with messages := setFlag messageId true s.messages }
    match generateSpeech apiKey outcome with
    | some _ =>
      let s2 :=
        match s1.activeAudioSource with
        | some h => { s1 with stoppedHandles := h :: s1.stoppedHandles }
        | none => s1
      { s2 with
        activeAudioSource := some s2.nextHandle
        nextHandle := s2.nextHandle + 1 }
    | none => { s1 with messages := setFlag messageId false s1.messages }

/-- `handleSendMessage` (lines 156–197): init the audio context, run the
interruption block, append the user message, set loading, await the text
backend (note the `messages` closure variable holds the pre-send history, so
the request history excludes the new user message), append the assistant
message, clear loading, and in voice mode play the response audio for the new
assistant message id. `generateTextResponse` is total, so the catch branch
that would clear loading on a throw is unreachable. -/
def handleSendMessage (text : String) (attachments : List Attachment)
    (isVoiceMode : Bool) (apiKey : Option String) (textBackend : TextBackend)
    (speechOutcome : SpeechOutcome) (s0 : SessionState) : SessionState :=
  let s1 := sendPrologue (initAudioContext s0)
  let userMsg : Message :=
    { id := s1.nextId, role := .user, text := text
      attachments := some attachments }
  let s2 :=
    { s1 with
      messages := s1.messages ++ [userMsg]
      nextId := s1.nextId + 1
      isLoading := true }
  let aiText := generateTextResponse apiKey textBackend
  let aiMsg : Message := { id := s2.nextId, role := .model, text := aiText }
  let s3 :=
    { s2 with
      messages := s2.messages ++ [aiMsg]
      nextId := s2.nextId + 1
      isLoading := false }
  if isVoiceMode then playResponseAudio apiKey speechOutcome aiMsg.id s3 else s3

/-- `setupRecognition` (lines 61–100): abort any previous instance inside a
`try`/`catch` that only warns, then — if the capability exists — install a
fresh non-continuous, final-results-only instance configured for the current
language; otherwise only warn, leaving the ref as it was. -/
def setupRecognition (speechSupported : Bool) (language : Language)
    (s : SessionState) : SessionState :=
  let s1 :=
    match s.recognition with
    | some r =>
      { s with
        recognition := some (match recAbortRaw r with
          | .ok r' => r'
          | .error _ => r) }
    | none => s
  if speechSupported then
    { s1 with
      recognition := some
        { lang := match language with | .ar => "ar-EG" | .en => "en-US"
          phase := .idle } }
  else s1

/-- `toggleRecording` (lines 107–118): init the audio context; while recording,
ask the instance to stop (optional chaining makes this a no-op without an
instance); otherwise stop and drop any active playback handle, then start the
instance if one exists (the `onstart` event that sets `isRecording` is
collapsed into the same step). -/
def toggleRecording (s : SessionState) : SessionState :=
  let s1 := initAudioContext s
  if s1.isRecording then
    match s1.recognition with
    | some r => { s1 with recognition := some { r with phase := recStopOp r.phase } }
    | none => s1
  else
    let s2 :=
      match s1.activeAudioSource with
      | some h =>
        { s1 with
          stoppedHandles := h :: s1.stoppedHandles
          activeAudioSource := none }
      | none => s1
    match s2.recognition with
    | some r =>
      { s2 with recognition := some { r with phase := .running }, isRecording := true }
    | none => s2

/-! ### Theorems: playback handle (C6) -/

/-- A started source node is either still playing with the callback never run,
or ended with the callback run exactly once. -/
def SourceInv (s : SourceState) : Prop :=
  (s.phase = .playing ∧ s.callbackCount = 0) ∨
    (s.phase = .ended ∧ s.callbackCount = 1)

theorem stepSource_inv (s : SourceState) (e : SourceEvent) (h : SourceInv s) :
    SourceInv (stepSource s e) := by
  obtain ⟨ph, c⟩ := s
  rcases h with ⟨hp, hc⟩ | ⟨hp, hc⟩ <;>
    simp only at hp hc <;> subst hp <;> subst hc <;> cases e <;>
      simp [SourceInv, stepSource, handleStop, sourceStopRaw, sourceNaturalEnd]

theorem foldl_stepSource_inv (evs : List SourceEvent) (s : SourceState)
    (h : SourceInv s) : SourceInv (evs.foldl stepSource s) := by
  induction evs generalizing s with
  | nil => exact h
  | cons e evs ih => exact ih _ (stepSource_inv s e h)

theorem runSource_inv (evs : List SourceEvent) : SourceInv (runSource evs) :=
  foldl_stepSource_inv evs initialSource (Or.inl ⟨rfl, rfl⟩)

theorem sourceInv_cases (s : SourceState) (h : SourceInv s) :
    s = { phase := .playing, callbackCount := 0 } ∨
      s = { phase := .ended, callbackCount := 1 } := by
  obtain ⟨ph, c⟩ := s
  rcases h with ⟨hp, hc⟩ | ⟨hp, hc⟩ <;> simp only at hp hc <;>
    subst hp <;> subst hc
  · exact Or.inl rfl
  · exact Or.inr rfl

theorem runSource_append (evs l : List SourceEvent) :
    runSource (evs ++ l) = l.foldl stepSource (runSource evs) := by
  simp [runSource, List.foldl_append]

/-- **C6.** For every playback-handle trace: the completion callback never
runs more than once; after natural completion it has run exactly once; a
further `stop()` after natural completion changes nothing (in particular it
raises no error, the `try`/`catch` in the handle swallowing the engine's
complaint) and duplicates no callback; and a second `stop()` after a first
one adds no callback invocation. -/
theorem playAudioBuffer_stop_idempotent (evs : List SourceEvent) :
    (runSource evs).callbackCount ≤ 1 ∧
    (runSource (evs ++ [.naturalEnd])).callbackCount = 1 ∧
    (runSource (evs ++ [.naturalEnd, .stop])).callbackCount = 1 ∧
    handleStop (runSource (evs ++ [.naturalEnd])) =
      runSource (evs ++ [.naturalEnd]) ∧
    (runSource (evs ++ [.stop, .stop])).callbackCount =
      (runSource (evs ++ [.stop])).callbackCount := by
  rcases sourceInv_cases _ (runSource_inv evs) with hr | hr <;>
    refine ⟨?_, ?_, ?_, ?_, ?_⟩ <;>
      simp [runSource_append, hr, List.foldl, stepSource, handleStop,
        sourceStopRaw, sourceNaturalEnd]

/-! ### Theorems: history bound (C3) -/

/-- **C3.** The request context built for a send holds exactly the most
recent `min n 10` prior messages, oldest first: its length is `min n 10` and
its `i`-th entry is the mapping of the prior message at index
`n - min n 10 + i`. -/
theorem generateTextRequest_history_bound (msg : String)
    (atts : List Attachment) (history : List Message) (d : HistoryEntry)
    (dm : Message) :
    (generateTextRequest msg atts history).history.length =
      min history.length 10 ∧
    ∀ i, i < min history.length 10 →
      (generateTextRequest msg atts history).history.getD i d =
        toHistoryEntry
          (history.getD (history.length - min history.length 10 + i) dm) := by
  constructor
  · simp only [generateTextRequest, recentHistory, List.length_map,
      List.length_drop]
    omega
  · intro i hi
    have hidx : history.length - 10 + i =
        history.length - min history.length 10 + i := by omega
    have hlt : history.length - min history.length 10 + i < history.length := by
      omega
    simp only [generateTextRequest, recentHistory]
    rw [List.getD_eq_getElem?_getD, List.getElem?_map, List.getElem?_drop,
      hidx, List.getElem?_eq_getElem hlt, List.getD_eq_getElem _ _ hlt]
    rfl

/-- Fifteen prior turns for the history-bound witness. -/
def history15 : List Message :=
  (List.range 15).map fun i =>
    { id := i
      role := if i % 2 = 0 then .user else .model
      text := "turn " ++ toString i }

/-- Witness for C3: with 15 prior turns the request history has
`min 15 10 = 10` entries and starts at prior index 5 (the 5 oldest turns are
dropped). -/
theorem generateTextRequest_history_bound_witness :
    history15.length = 15 ∧
    (generateTextRequest "hello" [] history15).history.length =
      min history15.length 10 ∧
    (generateTextRequest "hello" [] history15).history.getD 0 ⟨"user", ""⟩ =
      toHistoryEntry (history15.getD
        (history15.length - min history15.length 10 + 0)
        { id := 0, role := .user, text := "" }) :=
  ⟨by decide,
    (generateTextRequest_history_bound "hello" [] history15 ⟨"user", ""⟩
      { id := 0, role := .user, text := "" }).1,
    (generateTextRequest_history_bound "hello" [] history15 ⟨"user", ""⟩
      { id := 0, role := .user, text := "" }).2 0 (by decide)⟩

/-! ### Theorems: missing credential (C4) -/

/-- With no credential, `getAiClient` throws before any backend interaction,
and the catch converts it to the fixed bilingual notice — independently of
the backend outcome. -/
theorem generateTextResponse_missing_key (backend : TextBackend) :
    generateTextResponse none backend = apiKeyErrorMessage := rfl

theorem sendPrologue_messages_length (s : SessionState) :
    (sendPrologue s).messages.length = s.messages.length := by
  unfold sendPrologue
  split <;> simp [clearAllFlags]

/-- **C4.** With no API credential configured, `send("hello", [], false)`
appends exactly a user and an assistant message — the latter carrying the
fixed bilingual missing-key notice, whatever the backend would have answered —
and the session's loading flag ends `false`. -/
theorem send_missing_key (textBackend : TextBackend)
    (speechOutcome : SpeechOutcome) (s : SessionState) :
    ((handleSendMessage "hello" [] false none textBackend speechOutcome
        s).messages.getLast?.map Message.text = some apiKeyErrorMessage) ∧
    ((handleSendMessage "hello" [] false none textBackend speechOutcome
        s).messages.getLast?.map Message.role = some .model) ∧
    (handleSendMessage "hello" [] false none textBackend speechOutcome
        s).isLoading = false ∧
    (handleSendMessage "hello" [] false none textBackend speechOutcome
        s).messages.length = s.messages.length + 2 := by
  refine ⟨?_, ?_, ?_, ?_⟩ <;>
    simp [handleSendMessage, generateTextResponse_missing_key,
      List.getLast?_concat, sendPrologue_messages_length, initAudioContext]

/-! ### Theorems: backend failure handling (C5, C10) -/

theorem playResponseAudio_isLoading (apiKey : Option String)
    (outcome : SpeechOutcome) (messageId : Nat) (s : SessionState) :
    (playResponseAudio apiKey outcome messageId s).isLoading = s.isLoading := by
  unfold playResponseAudio
  split
  · rfl
  · dsimp only
    split
    · split <;> rfl
    · rfl

/-- The empty session used by concrete witnesses. -/
def initialSession : SessionState :=
  { messages := [], isLoading := false, isRecording := false, language := .ar
    audioContextInitialized := false, activeAudioSource := none
    stoppedHandles := [], recognition := none, nextId := 0, nextHandle := 0 }

/-- A representative network failure thrown by the backend call. -/
def networkError : JsError :=
  { message := "fetch failed", stringRep := "TypeError: fetch failed" }

/-- **C5.** For every backend outcome `generateTextResponse` returns a plain
string: it is one of the two bilingual error strings or the (fallback-guarded)
reply text, every thrown failure maps to a bilingual error string, and after
every send — voice mode or not, success or failure — the session's loading
flag is back to `false`. -/
theorem generateTextResponse_never_raises (apiKey : Option String)
    (backend : TextBackend) (text : String) (atts : List Attachment)
    (isVoiceMode : Bool) (speechOutcome : SpeechOutcome) (s : SessionState) :
    (generateTextResponse apiKey backend = apiKeyErrorMessage ∨
      generateTextResponse apiKey backend = genericErrorMessage ∨
      ∃ t k, apiKey = some k ∧ backend = .success t ∧
        generateTextResponse apiKey backend = textOrFallback t) ∧
    (∀ e, backend = .failure e →
      generateTextResponse apiKey backend = apiKeyErrorMessage ∨
      generateTextResponse apiKey backend = genericErrorMessage) ∧
    (handleSendMessage text atts isVoiceMode apiKey backend speechOutcome
      s).isLoading = false := by
  refine ⟨?_, ?_, ?_⟩
  · cases apiKey with
    | none => exact Or.inl (generateTextResponse_missing_key backend)
    | some k =>
      cases backend with
      | success t => exact Or.inr (Or.inr ⟨t, k, rfl, rfl, rfl⟩)
      | failure e =>
        by_cases h : isApiKeyError e
        · exact Or.inl (by
            simp [generateTextResponse, generateTextResponseAux, getAiClient, h])
        · exact Or.inr (Or.inl (by
            simp [generateTextResponse, generateTextResponseAux, getAiClient, h]))
  · intro e he
    subst he
    cases apiKey with
    | none => exact Or.inl (generateTextResponse_missing_key _)
    | some k =>
      by_cases h : isApiKeyError e
      · exact Or.inl (by
          simp [generateTextResponse, generateTextResponseAux, getAiClient, h])
      · exact Or.inr (by
          simp [generateTextResponse, generateTextResponseAux, getAiClient, h])
  · cases isVoiceMode <;>
      simp [handleSendMessage, playResponseAudio_isLoading]

/-- Witness for C5: a concrete network failure yields a bilingual error
string and a send carrying it leaves loading `false`. -/
theorem generateTextResponse_never_raises_witness :
    (generateTextResponse (some "k") (.failure networkError) =
        apiKeyErrorMessage ∨
      generateTextResponse (some "k") (.failure networkError) =
        genericErrorMessage) ∧
    (handleSendMessage "hi" [] false (some "k") (.failure networkError)
      .noData initialSession).isLoading = false :=
  ⟨(generateTextResponse_never_raises (some "k") (.failure networkError) "hi"
      [] false .noData initialSession).2.1 networkError rfl,
    (generateTextResponse_never_raises (some "k") (.failure networkError) "hi"
      [] false .noData initialSession).2.2⟩

theorem textOrFallback_ne_empty (t : Option String) : textOrFallback t ≠ "" := by
  cases t with
  | none => decide
  | some s =>
    by_cases h : s = ""
    · rw [h]; decide
    · simp [textOrFallback, h]

/-- **C10.** A successful backend call whose reply text is absent or empty
yields the fixed bilingual fallback string, and `generateTextResponse` never
returns an empty string, so every appended assistant message has non-empty
text. -/
theorem generateTextResponse_empty_fallback (k : String) (t : Option String)
    (apiKey : Option String) (backend : TextBackend) :
    generateTextResponse (some k) (.success none) = replyFallback ∧
    generateTextResponse (some k) (.success (some "")) = replyFallback ∧
    textOrFallback t ≠ "" ∧
    generateTextResponse apiKey backend ≠ "" := by
  refine ⟨rfl, rfl, textOrFallback_ne_empty t, ?_⟩
  cases apiKey with
  | none => rw [generateTextResponse_missing_key]; decide
  | some k' =>
    cases backend with
    | success t' => exact textOrFallback_ne_empty t'
    | failure e =>
      by_cases h : isApiKeyError e <;>
        simp [generateTextResponse, generateTextResponseAux, getAiClient, h] <;>
          decide

/-! ### Theorems: send-time interruption (C2, corrected) -/

/-- A session in which a message is marked audible while no playback handle
is held. Such states are reachable: `playResponseAudio` sets the flag before
awaiting `generateSpeech` while the handle ref is already cleared (loading is
`false` again at that point, so the input is enabled), and `toggleRecording`
drops a stopped handle's ref without clearing any flag. -/
def speakingNoHandleState : SessionState :=
  { messages :=
      [{ id := 0, role := .model, text := "hi", isAudioPlaying := true }]
    isLoading := false, isRecording := false, language := .ar
    audioContextInitialized := true, activeAudioSource := none
    stoppedHandles := [], recognition := none, nextId := 1, nextHandle := 0 }

/-- **C2 (counterexample).** A send issued while a message's audible flag is
`true` but no playback handle is held runs the interruption block without
clearing any flag: the speaking message is still flagged when the generation
request begins. -/
theorem sendPrologue_stale_flag :
    (∃ m ∈ speakingNoHandleState.messages, m.isAudioPlaying = true) ∧
    ¬ (∀ m ∈ (sendPrologue speakingNoHandleState).messages,
        m.isAudioPlaying = false) := by
  decide

/-- **C2 (amended).** For every send issued while a playback handle is
active, the interruption block at the start of `handleSendMessage` stops that
playback, drops the handle, and clears every message's audible flag before
the generation request begins; when the audible flag is set but no handle is
held (e.g. during a pending synthesis request) the flags are left unchanged. -/
theorem sendPrologue_clears_flags_when_handle_active (s : SessionState)
    (h : Nat) (hact : s.activeAudioSource = some h) :
    (∀ m ∈ (sendPrologue s).messages, m.isAudioPlaying = false) ∧
    (sendPrologue s).activeAudioSource = none ∧
    h ∈ (sendPrologue s).stoppedHandles := by
  unfold sendPrologue
  rw [hact]
  refine ⟨?_, rfl, List.mem_cons_self _ _⟩
  intro m hm
  simp only [clearAllFlags, List.mem_map] at hm
  obtain ⟨m0, _, rfl⟩ := hm
  rfl

/-- The reachable counterpart of `speakingNoHandleState` in which the handle
is still held. -/
def speakingWithHandleState : SessionState :=
  { speakingNoHandleState with activeAudioSource := some 7 }

theorem sendPrologue_clears_flags_when_handle_active_witness :
    speakingWithHandleState.activeAudioSource = some 7 ∧
    ((∀ m ∈ (sendPrologue speakingWithHandleState).messages,
        m.isAudioPlaying = false) ∧
      (sendPrologue speakingWithHandleState).activeAudioSource = none ∧
      7 ∈ (sendPrologue speakingWithHandleState).stoppedHandles) :=
  ⟨rfl, sendPrologue_clears_flags_when_handle_active speakingWithHandleState 7
    rfl⟩

/-! ### Theorems: empty audio and playback exclusivity (C7, C8) -/

theorem setFlag_id_false (messageId : Nat) (ms : List Message) :
    ∀ m ∈ setFlag messageId false ms, m.id = messageId →
      m.isAudioPlaying = false := by
  intro m hm hid
  simp only [setFlag, List.mem_map] at hm
  obtain ⟨m0, _, rfl⟩ := hm
  by_cases h : m0.id = messageId
  · rw [if_pos h]
  · rw [if_neg h] at hid ⊢
    exact absurd hid h

/-- **C7.** A voice-mode reply whose synthesis returns no audio data skips
playback without error: the flagged message ends with its audible flag
`false`, and no playback handle is created (active handle, handle counter and
stop log all unchanged). -/
theorem playResponseAudio_no_audio (apiKey : Option String) (messageId : Nat)
    (s : SessionState) (hctx : s.audioContextInitialized = true) :
    (∀ m ∈ (playResponseAudio apiKey .noData messageId s).messages,
        m.id = messageId → m.isAudioPlaying = false) ∧
    (playResponseAudio apiKey .noData messageId s).activeAudioSource =
      s.activeAudioSource ∧
    (playResponseAudio apiKey .noData messageId s).nextHandle = s.nextHandle ∧
    (playResponseAudio apiKey .noData messageId s).stoppedHandles =
      s.stoppedHandles := by
  have hspeech : generateSpeech apiKey .noData = none := by
    cases apiKey <;> rfl
  unfold playResponseAudio
  rw [hspeech, hctx]
  simp only [Bool.true_eq_false, if_false]
  refine ⟨?_, ?_, ?_, ?_⟩
  · exact setFlag_id_false messageId _
  · trivial
  · trivial
  · trivial

/-- The session used by witnesses that need an initialized audio context. -/
def ctxSession : SessionState :=
  { initialSession with audioContextInitialized := true }

theorem playResponseAudio_no_audio_witness :
    ctxSession.audioContextInitialized = true ∧
    ((∀ m ∈ (playResponseAudio (some "k") .noData 0 ctxSession).messages,
        m.id = 0 → m.isAudioPlaying = false) ∧
      (playResponseAudio (some "k") .noData 0 ctxSession).activeAudioSource =
        ctxSession.activeAudioSource ∧
      (playResponseAudio (some "k") .noData 0 ctxSession).nextHandle =
        ctxSession.nextHandle ∧
      (playResponseAudio (some "k") .noData 0 ctxSession).stoppedHandles =
        ctxSession.stoppedHandles) :=
  ⟨rfl, playResponseAudio_no_audio (some "k") 0 ctxSession rfl⟩

/-- **C8.** Starting a new playback while a handle is active first calls
`stop()` on the existing handle and only then installs the freshly created
one: the old handle lands in the stop log, the new (distinct) handle becomes
the single active one, and the handle counter advances. -/
theorem playResponseAudio_stops_previous (k : String) (bytes : List Nat)
    (messageId : Nat) (s : SessionState) (h : Nat)
    (hctx : s.audioContextInitialized = true)
    (hact : s.activeAudioSource = some h)
    (hfresh : h < s.nextHandle) :
    (playResponseAudio (some k) (.audio bytes) messageId
        s).activeAudioSource = some s.nextHandle ∧
    h ∈ (playResponseAudio (some k) (.audio bytes) messageId
        s).stoppedHandles ∧
    (playResponseAudio (some k) (.audio bytes) messageId s).nextHandle =
      s.nextHandle + 1 ∧
    s.nextHandle ≠ h := by
  unfold playResponseAudio
  rw [hctx]
  simp only [Bool.true_eq_false, if_false, generateSpeech]
  rw [hact]
  exact ⟨rfl, List.mem_cons_self _ _, rfl, by omega⟩

/-- A session with an active playback handle `3` and handle counter `5`. -/
def playingSession : SessionState :=
  { initialSession with
    audioContextInitialized := true
    activeAudioSource := some 3
    nextHandle := 5 }

theorem playResponseAudio_stops_previous_witness :
    (playingSession.audioContextInitialized = true ∧
      playingSession.activeAudioSource = some 3 ∧ 3 < playingSession.nextHandle) ∧
    ((playResponseAudio (some "k") (.audio [0, 0]) 9
        playingSession).activeAudioSource = some playingSession.nextHandle ∧
      3 ∈ (playResponseAudio (some "k") (.audio [0, 0]) 9
        playingSession).stoppedHandles ∧
      (playResponseAudio (some "k") (.audio [0, 0]) 9
        playingSession).nextHandle = playingSession.nextHandle + 1 ∧
      playingSession.nextHandle ≠ 3) :=
  ⟨⟨rfl, rfl, by decide⟩,
    playResponseAudio_stops_previous "k" [0, 0] 9 playingSession 3 rfl rfl
      (by decide)⟩

/-! ### Theorems: voice capture safety (C9) -/

/-- **C9.** With the speech-capture capability absent (no recognition
instance exists and none can be created), starting a recording is a no-op on
the recording state and raises no error; and `stop()`/`abort()` are safe at
any time: `stop()` leaves a never-started or already-finished instance
unchanged, and `setupRecognition`'s guarded `abort()` completes even on an
instance whose abort raises. -/
theorem recording_unsupported_safe (s : SessionState) (lang : Language)
    (r : RecInstance) (hrec : s.recognition = none)
    (hnr : s.isRecording = false) :
    ((toggleRecording s).isRecording = false ∧
      (toggleRecording s).recognition = none ∧
      (toggleRecording s).messages = s.messages ∧
      (toggleRecording s).isLoading = s.isLoading) ∧
    (setupRecognition false lang s).recognition = none ∧
    (r.abortFaulty = true →
      (setupRecognition false lang
        { s with recognition := some r }).recognition = some r) ∧
    recStopOp .idle = .idle ∧ recStopOp .finished = .finished := by
  refine ⟨?_, ?_, ?_, rfl, rfl⟩
  · unfold toggleRecording
    simp only [initAudioContext, hnr, hrec, Bool.false_eq_true, if_false]
    rcases hA : s.activeAudioSource with _ | h' <;> simp [hA]
  · simp [setupRecognition, hrec]
  · intro hf
    simp [setupRecognition, recAbortRaw, hf]

/-- A recognition instance whose engine-level `abort()` raises. -/
def faultyRec : RecInstance :=
  { lang := "ar-EG", phase := .running, abortFaulty := true }

theorem recording_unsupported_safe_witness :
    (initialSession.recognition = none ∧ initialSession.isRecording = false) ∧
    (toggleRecording initialSession).isRecording = false ∧
    (setupRecognition false .en initialSession).recognition = none ∧
    (setupRecognition false .en
      { initialSession with recognition := some faultyRec }).recognition =
        some faultyRec :=
  ⟨⟨rfl, rfl⟩,
    (recording_unsupported_safe initialSession .en faultyRec rfl rfl).1.1,
    (recording_unsupported_safe initialSession .en faultyRec rfl rfl).2.1,
    (recording_unsupported_safe initialSession .en faultyRec rfl rfl).2.2.1
      rfl⟩

end Aialaska
